import Mathlib

/-
Verification of the plugin-registry code checker (code_checker.py).

The embedding below translates the Python source statement by statement.
External effects (which executables resolve on PATH, the filesystem, and
the captured output of each external tool) are abstracted into an `Env` record
of pure functions; prints and spawned subprocesses are collected as lists
in the order they occur.  Python exceptions are modelled with `Except`.
-/

namespace CodeCheckerSpec

/-- A single quote character, for building the exact CPython message texts. -/
def sq : String := String.singleton (Char.ofNat 39)

/-- Model of `subprocess.CompletedProcess` as consumed by the plugins
(`result.stdout`, `result.stderr`; `returncode` is never read by the code). -/
structure ProcResult where
  stdout : String
  stderr : String
  returncode : Int
deriving DecidableEq

/-- The ambient system, abstracted: `onPath` models `shutil.which`,
`isDir` models `os.path.isdir`, `walk` models `os.walk` (each entry is a
`(root, files)` pair; the `dirs` component is unused by the code), and
`run` models `subprocess.run [tool, arg]` with captured text output. -/
structure Env where
  onPath : String → Bool
  isDir : String → Bool
  walk : String → List (String × List String)
  run : String → String → ProcResult

/-- The Python exceptions the program can raise. -/
inductive PyErr where
  | valueError (msg : String)
  | environmentError (msg : String)
  | attributeError (msg : String)
  | typeError (msg : String)
  | unboundLocalError (msg : String)
deriving DecidableEq

instance {ε α : Type} [DecidableEq ε] [DecidableEq α] : DecidableEq (Except ε α)
  | .error a, .error b =>
    decidable_of_iff (a = b) ⟨fun h => by rw [h], fun h => by cases h; rfl⟩
  | .error _, .ok _ => isFalse (fun h => by cases h)
  | .ok _, .error _ => isFalse (fun h => by cases h)
  | .ok a, .ok b =>
    decidable_of_iff (a = b) ⟨fun h => by rw [h], fun h => by cases h; rfl⟩

/-- Observable outcome of one `check` call: the returned value (or the
exception raised), the strings printed, and the subprocesses spawned
(tool name paired with its single file/path argument), each in order. -/
structure CheckOutcome where
  result : Except PyErr (Option String)
  prints : List String
  spawns : List (String × String)
deriving DecidableEq

/-- The literal text the scoring regex must find:
`Your code has been rated at ` (line 111 of the source). -/
def ratedPat : List Char := "Your code has been rated at ".data

/-- The regex character class `[0-9\.]`. -/
def scoreChar (c : Char) : Bool := c.isDigit || c == '.'

/-- The literal `/10` that must follow the captured score. -/
def slash10 : List Char := "/10".data

/-- Maximal-munch split: the longest prefix of `[0-9\.]` characters,
paired with the remainder.  This is what the greedy `([0-9\.]+)` consumes. -/
def takeScoreRun : List Char → List Char × List Char
  | [] => ([], [])
  | c :: cs =>
    if scoreChar c then
      let p := takeScoreRun cs
      (c :: p.1, p.2)
    else ([], c :: cs)

/-- Attempt of the regex `Your code has been rated at ([0-9\.]+)/10` at one
fixed start position.  Backtracking inside `([0-9\.]+)` cannot help: a
shorter run is followed by a class character, never by `/`, so the match
succeeds exactly when the maximal run is nonempty and followed by `/10`. -/
def matchRatedAt (cs : List Char) : Option (List Char) :=
  if ratedPat.isPrefixOf cs then
    let t := cs.drop ratedPat.length
    let run := (takeScoreRun t).1
    let rest := (takeScoreRun t).2
    if run.isEmpty then none
    else if slash10.isPrefixOf rest then some run
    else none
  else none

/-- Model of `re.search`: try every start position left to right, first success wins. -/
def searchRated : List Char → Option (List Char)
  | [] => matchRatedAt []
  | c :: cs => (matchRatedAt (c :: cs)).orElse (fun _ => searchRated cs)

/-- Model of `re.search(r"Your code has been rated at ([0-9\.]+)/10", stdout)` followed
by `.group(1)`: the first captured score substring, if any (line 111-112). -/
def extractScore (stdout : String) : Option String :=
  (searchRated stdout.data).map (fun cs => String.mk cs)

/-- Numeric value of a digit string (most significant first). -/
def digitsVal (cs : List Char) : Nat :=
  cs.foldl (fun a c => 10 * a + (c.toNat - 48)) 0

/-- Well-formedness and decomposition of a candidate score numeral (a
string over digits and dots, the regex capture class): integer part value,
fractional part value, and fractional digit count — `none` where CPython
`float()` raises `ValueError` (no digit, or more than one dot). -/
def pyfloatParts (s : String) : Option (Nat × Nat × Nat) :=
  let cs := s.data
  let ip := cs.takeWhile (fun c => !(c == '.'))
  let rest := cs.dropWhile (fun c => !(c == '.'))
  let frac := rest.drop 1
  if cs.isEmpty then none
  else if !cs.all scoreChar then none
  else if !cs.any Char.isDigit then none
  else if frac.any (fun c => c == '.') then none
  else some (digitsVal ip, digitsVal frac, frac.length)

/-- Model of CPython `float()` restricted to candidate score numerals: the
exact decimal value as a rational when the numeral is well formed.  CPython
rounds the decimal to the nearest binary double; the claims checked here
concern the decimal value itself, so the exact rational is the faithful
comparison point at this granularity. -/
def pyfloat (s : String) : Option ℚ :=
  (pyfloatParts s).map (fun p => (p.1 : ℚ) + (p.2.1 : ℚ) / ((10 : ℚ) ^ p.2.2))

/-- State of a `PylintPlugin` instance: its `__init__` (lines 55-62) sets exactly
`self.verbose` and `self.scorelimit`; `scorelimit` is hard-coded to `-1.0`
there.  Note that no attribute named `optional` is ever defined on this
class or its instances (it does not inherit from `CodeChecker`). -/
structure PylintPlugin where
  verbose : Bool
  scorelimit : ℚ
deriving DecidableEq

/-- Python `file.endswith(".py")`, on the character model. -/
def endsWithPy (file : String) : Bool :=
  ".py".data.isSuffixOf file.data

/-- Model of `PylintPlugin.get_source_files` (lines 64-80): a directory yields every
`.py` file beneath it via `os.walk` (paths joined with the root); anything
that is not a directory yields the one-element list of the path itself,
with no extension filter. -/
def PylintPlugin.get_source_files (env : Env) (source : String) : List String :=
  if env.isDir source then
    ((env.walk source).map
      (fun rf => (rf.2.filter endsWithPy).map (fun f => rf.1 ++ "/" ++ f))).flatten
  else
    [source]

/-- The message of the `AttributeError` CPython raises at line 115: the
test `if self.optional and isinstance(self.optional, float):` looks up
`self.optional` on a `PylintPlugin` instance, which defines no such
attribute, so the lookup itself raises before either branch is taken. -/
def attrErrMsg : String :=
  sq ++ "PylintPlugin" ++ sq ++ " object has no attribute " ++ sq ++ "optional" ++ sq

/-- The `EnvironmentError` message of line 91. -/
def pylintUnavailableMsg : String :=
  "pylint is not available in the system" ++ sq ++ "s PATH"

/-- Line 125 sentinel string for a missing score match (line 112). -/
def notFoundMsg : String := "Score not found"

/-- The verbose banner printed at line 94. -/
def pylintBanner (source : String) : String :=
  "Running pylint checks on " ++ source ++ "..."

/-- CPython 3.11-style message for reading the never-assigned local
`result` at line 136 when the file loop ran zero times. -/
def unboundResultMsg : String :=
  "cannot access local variable " ++ sq ++ "result" ++ sq ++
    " where it is not associated with a value"

/-- Running state of the per-file loop at lines 104-127: `scores`, the two
counters, the current value of the loop-local `result`, and the effects
accumulated so far. -/
structure LoopSt where
  scores : List String
  eight : Nat
  nine : Nat
  last : Option ProcResult
  prints : List String
  spawns : List (String × String)
deriving DecidableEq

/-- The loop at lines 104-127 of `PylintPlugin.check`.  Each iteration runs
pylint on one file, prints the captured output when verbose, and extracts
the score.  When a score is found, line 115 evaluates `self.optional`,
which raises `AttributeError` (the class defines no attribute
`optional`), aborting the loop; hence lines 116-127 (filter-mode printing,
the two counters, the scorelimit abort, and `scores.append`) are
unreachable, and `scores` can only ever stay as it started. -/
def pylintLoop (verbose : Bool) (env : Env) : List String → LoopSt → LoopSt × Option PyErr
  | [], st => (st, none)
  | filename :: rest, st =>
    let r := env.run "pylint" filename
    let st1 : LoopSt :=
      { st with
        last := some r
        spawns := st.spawns ++ [("pylint", filename)]
        prints := st.prints ++ (if verbose then [r.stdout, r.stderr] else []) }
    let score := (extractScore r.stdout).getD notFoundMsg
    if score ≠ notFoundMsg then
      (st1, some (.attributeError attrErrMsg))
    else
      pylintLoop verbose env rest st1

/-- The summary message of lines 129-134.  This point is unreachable in the
source (the loop raises before any `scores.append`), and the embedding
keeps its shape: the average is rendered as an exact rational where CPython
would render a float repr, immaterial on an unreachable branch. -/
def pylintSummary (st : LoopSt) : String :=
  "Average pylint score: " ++
      toString ((st.scores.map (fun s => (pyfloat s).getD 0)).sum / (st.scores.length : ℚ)) ++ "\n" ++
    "Number of files with a score of at least 8.0: " ++ toString st.eight ++ "\n" ++
    "Number of files with a score of at least 9.0: " ++ toString st.nine ++ "\n" ++
    "Number of files processed: " ++ toString st.scores.length

/-- Model of `PylintPlugin.check` (lines 82-136), with the instance threaded through
so that (non-)mutation of its fields is part of the statement: guard on
`shutil.which("pylint")`, verbose banner, enumerate source files, run the
per-file loop, then either propagate the raised exception, return the
summary (`if scores:`), or fall back to the last raw stdout — reading the
loop-local `result` raises `UnboundLocalError` when the loop never ran. -/
def PylintPlugin.check (p : PylintPlugin) (env : Env) (source : String) :
    PylintPlugin × CheckOutcome :=
  (p,
    if env.onPath "pylint" = false then
      { result := .error (.environmentError pylintUnavailableMsg), prints := [], spawns := [] }
    else
      let pr0 : List String := if p.verbose then [pylintBanner source] else []
      let files := PylintPlugin.get_source_files env source
      let out := pylintLoop p.verbose env files ⟨[], 0, 0, none, pr0, []⟩
      match out.2 with
      | some e => { result := .error e, prints := out.1.prints, spawns := out.1.spawns }
      | none =>
        if out.1.scores ≠ [] then
          { result := .ok (some (pylintSummary out.1)),
            prints := out.1.prints, spawns := out.1.spawns }
        else
          match out.1.last with
          | some r =>
            { result := .ok (some r.stdout), prints := out.1.prints, spawns := out.1.spawns }
          | none =>
            { result := .error (.unboundLocalError unboundResultMsg),
              prints := out.1.prints, spawns := out.1.spawns })

/-- State of a `Flake8Plugin` instance (lines 142-148): only `verbose`. -/
structure Flake8Plugin where
  verbose : Bool
deriving DecidableEq

/-- The `EnvironmentError` message of line 159. -/
def flake8UnavailableMsg : String :=
  "flake8 is not available in the system" ++ sq ++ "s PATH"

/-- The verbose banner printed at line 162. -/
def flake8Banner (source : String) : String :=
  "Running flake8 checks on " ++ source ++ "..."

/-- Model of `Flake8Plugin.check` (lines 150-169): guard on `shutil.which`, verbose
banner, invoke flake8 once with the raw target path, print the captured
stdout and stderr when verbose, and return `result.stdout` when not
verbose, `None` when verbose. -/
def Flake8Plugin.check (p : Flake8Plugin) (env : Env) (source : String) :
    Flake8Plugin × CheckOutcome :=
  (p,
    if env.onPath "flake8" = false then
      { result := .error (.environmentError flake8UnavailableMsg), prints := [], spawns := [] }
    else
      let r := env.run "flake8" source
      { result := .ok (if p.verbose then none else some r.stdout)
        prints :=
          (if p.verbose then [flake8Banner source] else []) ++
            (if p.verbose then [r.stdout, r.stderr] else [])
        spawns := [("flake8", source)] })

/-- State of a `PyDocStylePlugin` instance (lines 175-181): only `verbose`. -/
structure PyDocStylePlugin where
  verbose : Bool
deriving DecidableEq

/-- The `EnvironmentError` message of line 193. -/
def pydocstyleUnavailableMsg : String :=
  "pydocstyle is not available in the system" ++ sq ++ "s PATH"

/-- The verbose banner printed at line 196. -/
def pydocstyleBanner (source : String) : String :=
  "Running pydocstyle checks on " ++ source ++ "..."

/-- Model of `PyDocStylePlugin.check` (lines 183-203): identical contract to
`Flake8Plugin.check` except for the tool name and the extra `optional`
parameter, which is accepted and never used. -/
def PyDocStylePlugin.check (p : PyDocStylePlugin) (env : Env) (source : String)
    (optional : Option String) : PyDocStylePlugin × CheckOutcome :=
  (p,
    if env.onPath "pydocstyle" = false then
      { result := .error (.environmentError pydocstyleUnavailableMsg), prints := [], spawns := [] }
    else
      let r := env.run "pydocstyle" source
      { result := .ok (if p.verbose then none else some r.stdout)
        prints :=
          (if p.verbose then [pydocstyleBanner source] else []) ++
            (if p.verbose then [r.stdout, r.stderr] else [])
        spawns := [("pydocstyle", source)] })

/-- The three plugin classes the program defines; registry values are
classes (`type`), instantiated per `run_check` call. -/
inductive PluginKind where
  | pylint
  | flake8
  | pydocstyle
deriving DecidableEq

/-- State of a `CodeChecker` (lines 11-34): the `plugins` dict (modelled as the
name-to-class map), `verbose`, and `optional` (`args.scores_less_than`
comes from argparse without a type converter, hence a string when
present). -/
structure CodeChecker where
  plugins : String → Option PluginKind
  verbose : Bool
  optional : Option String

/-- Model of `CodeChecker.__init__` (lines 16-25): empty plugin dict plus the two
configuration fields. -/
def CodeChecker.init (verbose : Bool) (optional : Option String) : CodeChecker :=
  { plugins := fun _ => none, verbose := verbose, optional := optional }

/-- Model of `CodeChecker.register_plugin` (lines 27-34): `self.plugins[name] = plugin_module`,
overwriting any previous entry for `name`. -/
def CodeChecker.register_plugin (cc : CodeChecker) (name : String) (k : PluginKind) :
    CodeChecker :=
  { cc with plugins := fun n => if n = name then some k else cc.plugins n }

/-- The `ValueError` message of line 49, naming the requested checker. -/
def unregisteredMsg (checker : String) : String :=
  "Checker " ++ sq ++ checker ++ sq ++ " is not registered."

/-- The `TypeError` CPython raises when line 47 calls `plugin.check(source)`
on a `PyDocStylePlugin`: that method (line 183) requires a second positional
argument `optional`, which the dispatch never passes. -/
def pydocstyleDispatchMsg : String :=
  "PyDocStylePlugin.check() missing 1 required positional argument: " ++
    sq ++ "optional" ++ sq

/-- Model of `CodeChecker.run_check` (lines 36-49), with the checker object threaded
through: look the name up in the plugin dict; when present, construct the
plugin class with `self.verbose` (for pylint this sets `scorelimit = -1.0`,
line 62) and invoke `plugin.check(source)`.  For `PyDocStylePlugin` that
call itself raises `TypeError` (arity mismatch) before any of the method
body runs.  When the name is absent, raise the line-49 `ValueError`. -/
def CodeChecker.run_check (cc : CodeChecker) (env : Env) (source checker : String) :
    CodeChecker × CheckOutcome :=
  (cc,
    match cc.plugins checker with
    | some .pylint => (PylintPlugin.check ⟨cc.verbose, -1⟩ env source).2
    | some .flake8 => (Flake8Plugin.check ⟨cc.verbose⟩ env source).2
    | some .pydocstyle =>
      { result := .error (.typeError pydocstyleDispatchMsg), prints := [], spawns := [] }
    | none =>
      { result := .error (.valueError (unregisteredMsg checker)), prints := [], spawns := [] })

/-- The checker exactly as `main` builds it (lines 221-224): the three
plugins registered under the names `pylint`, `flake8`, `pydocstyle`. -/
def cliChecker (verbose : Bool) (optional : Option String) : CodeChecker :=
  (((CodeChecker.init verbose optional).register_plugin "pylint" .pylint).register_plugin
      "flake8" .flake8).register_plugin "pydocstyle" .pydocstyle

/-- A system with no tool on the executable search path. -/
def envNoTools : Env :=
  { onPath := fun _ => false
    isDir := fun _ => false
    walk := fun _ => []
    run := fun _ _ => ⟨"", "", 0⟩ }

/-- A system with every tool available whose tool runs emit empty output. -/
def envQuiet : Env :=
  { onPath := fun _ => true
    isDir := fun _ => false
    walk := fun _ => []
    run := fun _ _ => ⟨"", "", 0⟩ }

/-- A system where every pylint run rates the file 5.00/10. -/
def envScore500 : Env :=
  { onPath := fun _ => true
    isDir := fun _ => false
    walk := fun _ => []
    run := fun _ _ => ⟨"Your code has been rated at 5.00/10\n", "", 0⟩ }

/-- A directory `proj` of three files rated 9.1, 8.2 and 7.9. -/
def envThreeScores : Env :=
  { onPath := fun _ => true
    isDir := fun s => s == "proj"
    walk := fun _ => [("proj", ["a.py", "b.py", "c.py"])]
    run := fun _ f =>
      if f == "proj/a.py" then ⟨"Your code has been rated at 9.1/10\n", "", 0⟩
      else if f == "proj/b.py" then ⟨"Your code has been rated at 8.2/10\n", "", 0⟩
      else ⟨"Your code has been rated at 7.9/10\n", "", 0⟩ }

/-- A system where every pylint run rates the file 5.5/10. -/
def envScore55 : Env :=
  { onPath := fun _ => true
    isDir := fun _ => false
    walk := fun _ => []
    run := fun _ _ => ⟨"Your code has been rated at 5.5/10\n", "", 0⟩ }

/-- A directory `empty` that contains no `.py` file at all. -/
def envEmptyDir : Env :=
  { onPath := fun _ => true
    isDir := fun s => s == "empty"
    walk := fun _ => [("empty", [])]
    run := fun _ _ => ⟨"", "", 0⟩ }

/-- C9: `run_check` leaves the `CodeChecker` — its plugin mapping, its
verbosity and its threshold setting — exactly as it was, and no plugin
`check` operation changes any field of the plugin instance it runs on: the
source contains no assignment to any of these fields outside the
constructors, which the state-threaded embedding renders as each operation
returning its receiver unchanged. -/
theorem c9_configuration_immutable (cc : CodeChecker) (env : Env) (source checker : String)
    (p : PylintPlugin) (f : Flake8Plugin) (d : PyDocStylePlugin) (o : Option String) :
    (cc.run_check env source checker).1 = cc ∧
    (PylintPlugin.check p env source).1 = p ∧
    (Flake8Plugin.check f env source).1 = f ∧
    (PyDocStylePlugin.check d env source o).1 = d :=
  ⟨rfl, rfl, rfl, rfl⟩

/-- C7: when the required executable does not resolve on the search path,
the `check` of each plugin raises `EnvironmentError` naming the missing tool,
with no print produced and no subprocess spawned — the `shutil.which`
guard is the first statement of every `check`, before the verbose banner,
the (pure) file enumeration, and any tool invocation. -/
theorem c7_tool_unavailable (p : PylintPlugin) (f : Flake8Plugin) (d : PyDocStylePlugin)
    (env : Env) (source : String) (o : Option String)
    (h1 : env.onPath "pylint" = false)
    (h2 : env.onPath "flake8" = false)
    (h3 : env.onPath "pydocstyle" = false) :
    (PylintPlugin.check p env source).2 =
      { result := .error (.environmentError pylintUnavailableMsg), prints := [], spawns := [] } ∧
    (Flake8Plugin.check f env source).2 =
      { result := .error (.environmentError flake8UnavailableMsg), prints := [], spawns := [] } ∧
    (PyDocStylePlugin.check d env source o).2 =
      { result := .error (.environmentError pydocstyleUnavailableMsg), prints := [], spawns := [] } := by
  refine ⟨?_, ?_, ?_⟩ <;>
    simp [PylintPlugin.check, Flake8Plugin.check, PyDocStylePlugin.check, h1, h2, h3]

theorem c7_tool_unavailable_witness :
    (PylintPlugin.check ⟨false, -1⟩ envNoTools "a.py").2 =
      { result := .error (.environmentError pylintUnavailableMsg), prints := [], spawns := [] } ∧
    (Flake8Plugin.check ⟨false⟩ envNoTools "a.py").2 =
      { result := .error (.environmentError flake8UnavailableMsg), prints := [], spawns := [] } ∧
    (PyDocStylePlugin.check ⟨false⟩ envNoTools "a.py" none).2 =
      { result := .error (.environmentError pydocstyleUnavailableMsg), prints := [], spawns := [] } :=
  c7_tool_unavailable ⟨false, -1⟩ ⟨false⟩ ⟨false⟩ envNoTools "a.py" none rfl rfl rfl

/-- C8: for the style and documentation-style plugins, with the tool on
the path: a verbose check invokes the tool once with the raw target path,
prints the banner, the captured stdout and the captured stderr (each a
single print), and returns `None`; a non-verbose check invokes the tool
once, prints nothing, and returns the captured stdout text. -/
theorem c8_verbosity_contract (env : Env) (source : String) (o : Option String)
    (h8 : env.onPath "flake8" = true) (hd : env.onPath "pydocstyle" = true) :
    (Flake8Plugin.check ⟨true⟩ env source).2 =
      { result := .ok none
        prints := [flake8Banner source, (env.run "flake8" source).stdout,
          (env.run "flake8" source).stderr]
        spawns := [("flake8", source)] } ∧
    (Flake8Plugin.check ⟨false⟩ env source).2 =
      { result := .ok (some (env.run "flake8" source).stdout)
        prints := []
        spawns := [("flake8", source)] } ∧
    (PyDocStylePlugin.check ⟨true⟩ env source o).2 =
      { result := .ok none
        prints := [pydocstyleBanner source, (env.run "pydocstyle" source).stdout,
          (env.run "pydocstyle" source).stderr]
        spawns := [("pydocstyle", source)] } ∧
    (PyDocStylePlugin.check ⟨false⟩ env source o).2 =
      { result := .ok (some (env.run "pydocstyle" source).stdout)
        prints := []
        spawns := [("pydocstyle", source)] } := by
  refine ⟨?_, ?_, ?_, ?_⟩ <;> simp [Flake8Plugin.check, PyDocStylePlugin.check, h8, hd]

theorem c8_verbosity_contract_witness :
    (Flake8Plugin.check ⟨true⟩ envQuiet "m.py").2 =
      { result := .ok none
        prints := [flake8Banner "m.py", (envQuiet.run "flake8" "m.py").stdout,
          (envQuiet.run "flake8" "m.py").stderr]
        spawns := [("flake8", "m.py")] } ∧
    (Flake8Plugin.check ⟨false⟩ envQuiet "m.py").2 =
      { result := .ok (some (envQuiet.run "flake8" "m.py").stdout)
        prints := []
        spawns := [("flake8", "m.py")] } ∧
    (PyDocStylePlugin.check ⟨true⟩ envQuiet "m.py" none).2 =
      { result := .ok none
        prints := [pydocstyleBanner "m.py", (envQuiet.run "pydocstyle" "m.py").stdout,
          (envQuiet.run "pydocstyle" "m.py").stderr]
        spawns := [("pydocstyle", "m.py")] } ∧
    (PyDocStylePlugin.check ⟨false⟩ envQuiet "m.py" none).2 =
      { result := .ok (some (envQuiet.run "pydocstyle" "m.py").stdout)
        prints := []
        spawns := [("pydocstyle", "m.py")] } :=
  c8_verbosity_contract envQuiet "m.py" none rfl rfl

/-- C1: the claim fails on the code for one of the three CLI-registered
names.  With the registry exactly as `main` builds it, dispatching
`pydocstyle` raises `TypeError` — line 47 calls `plugin.check(source)`
with one argument while `PyDocStylePlugin.check` requires two — instead of
returning the result of that check.  The other parts of the claim do hold, as
the remaining conjuncts show: an unregistered name raises the line-49
`ValueError` naming it, and the `flake8` and `pylint` dispatches return
exactly the outcome of their plugin check. -/
theorem c1_pydocstyle_dispatch_type_error :
    ((cliChecker false none).run_check envQuiet "m.py" "pydocstyle").2 =
      { result := .error (.typeError pydocstyleDispatchMsg), prints := [], spawns := [] } ∧
    ((cliChecker false none).run_check envQuiet "m.py" "mypy").2 =
      { result := .error (.valueError (unregisteredMsg "mypy")), prints := [], spawns := [] } ∧
    ((cliChecker false none).run_check envQuiet "m.py" "flake8").2 =
      (Flake8Plugin.check ⟨false⟩ envQuiet "m.py").2 ∧
    ((cliChecker false none).run_check envQuiet "m.py" "pylint").2 =
      (PylintPlugin.check ⟨false, -1⟩ envQuiet "m.py").2 := by
  decide

/-- C2: the claim fails on the code.  A `PylintPlugin` cannot be given a
threshold at construction (its `__init__` takes only `verbose`), and as
soon as any file yields a score, line 115 reads `self.optional`, an
attribute the class never defines, so the check dies with `AttributeError`
— here on a file rated 5.00, which a filter threshold of 7.5 should have
printed as `a.py: 5.00`; nothing is printed at all. -/
theorem c2_filter_mode_attribute_error :
    (PylintPlugin.check ⟨false, -1⟩ envScore500 "a.py").2 =
      { result := .error (.attributeError attrErrMsg)
        prints := []
        spawns := [("pylint", "a.py")] } := by
  decide

/-- C4: the claim fails on the code.  On a directory of three files rated
9.1, 8.2 and 7.9 the claimed summary (average 8.4, two files ≥ 8.0, one
≥ 9.0, three processed) is never produced: the check dies with
`AttributeError` at the first scored file — line 115 reads the undefined
`self.optional` before any aggregation — and the remaining files are never
run. -/
theorem c4_normal_mode_attribute_error :
    (PylintPlugin.check ⟨false, -1⟩ envThreeScores "proj").2 =
      { result := .error (.attributeError attrErrMsg)
        prints := []
        spawns := [("pylint", "proj/a.py")] } := by
  decide

/-- C5: the claim fails on the code.  Even with the floor field set to 6.0
and a file rated 5.5 below it, the check does not print the line-125
failure message and return `None`: it dies with `AttributeError` at line
115, before the floor comparison at line 124 is ever reached.  (Moreover
`run_check` always constructs the plugin with `scorelimit = -1.0`, a
disabled floor, so the floor branch is doubly unreachable in the program.) -/
theorem c5_floor_abort_attribute_error :
    (PylintPlugin.check ⟨false, 6⟩ envScore55 "low.py").2 =
      { result := .error (.attributeError attrErrMsg)
        prints := []
        spawns := [("pylint", "low.py")] } := by
  decide

/-- C6 counterexample: the claim includes the empty enumeration, but when
the enumerated source-file list is empty (a directory with no `.py` file)
the loop at line 104 never runs, so line 136 reads the never-assigned
local `result` and the check raises `UnboundLocalError` instead of
returning any raw stdout text. -/
theorem c6_empty_enumeration_counterexample :
    (PylintPlugin.check ⟨false, -1⟩ envEmptyDir "empty").2 =
      { result := .error (.unboundLocalError unboundResultMsg)
        prints := []
        spawns := [] } := by
  decide

/-- When no file in the list yields a score match, the per-file loop
completes without raising, never touches `scores`, and leaves the
loop-local `result` holding the output of the last invocation (or its
starting value when the list is empty). -/
theorem pylintLoop_no_score (v : Bool) (env : Env) (files : List String) :
    ∀ st : LoopSt,
      (∀ f ∈ files, extractScore (env.run "pylint" f).stdout = none) →
      (pylintLoop v env files st).2 = none ∧
      (pylintLoop v env files st).1.scores = st.scores ∧
      (pylintLoop v env files st).1.last =
        files.getLast?.elim st.last (fun f => some (env.run "pylint" f)) := by
  induction files with
  | nil => exact fun st _ => ⟨rfl, rfl, rfl⟩
  | cons f rest ih =>
    intro st h
    have hf : extractScore (env.run "pylint" f).stdout = none :=
      h f (List.mem_cons_self f rest)
    have hstep :
        pylintLoop v env (f :: rest) st =
          pylintLoop v env rest
            { st with
              last := some (env.run "pylint" f)
              spawns := st.spawns ++ [("pylint", f)]
              prints := st.prints ++
                (if v then [(env.run "pylint" f).stdout, (env.run "pylint" f).stderr] else []) } := by
      simp [pylintLoop, hf, notFoundMsg]
    obtain ⟨h1, h2, h3⟩ := ih _ (fun x hx => h x (List.mem_cons_of_mem f hx))
    refine ⟨by rw [hstep]; exact h1, by rw [hstep]; exact h2, ?_⟩
    rw [hstep, h3]
    cases rest with
    | nil => rfl
    | cons g gs => rw [List.getLast?_cons_cons]; rfl

/-- C6 (amended): in normal mode, when at least one file is enumerated and
no enumerated file yields a score-pattern match, the check returns the raw
stdout of the last tool invocation verbatim. -/
theorem c6_no_score_fallback (p : PylintPlugin) (env : Env) (source : String)
    (hpath : env.onPath "pylint" = true)
    (hne : PylintPlugin.get_source_files env source ≠ [])
    (hns : ∀ f ∈ PylintPlugin.get_source_files env source,
      extractScore (env.run "pylint" f).stdout = none) :
    (PylintPlugin.check p env source).2.result =
      .ok (some (env.run "pylint"
        ((PylintPlugin.get_source_files env source).getLast hne)).stdout) := by
  obtain ⟨h1, h2, h3⟩ :=
    pylintLoop_no_score p.verbose env (PylintPlugin.get_source_files env source)
      ⟨[], 0, 0, none, if p.verbose then [pylintBanner source] else [], []⟩ hns
  rw [List.getLast?_eq_getLast _ hne] at h3
  simp only [PylintPlugin.check, hpath, Bool.true_eq_false, if_false, h1, h2, h3,
    Option.elim_some, ne_eq, not_true_eq_false, if_neg, not_false_eq_true]

def envCleanRun : Env :=
  { onPath := fun _ => true
    isDir := fun _ => false
    walk := fun _ => []
    run := fun _ _ => ⟨"clean\n", "warnings\n", 0⟩ }

theorem c6_no_score_fallback_witness :
    (PylintPlugin.check ⟨false, -1⟩ envCleanRun "a.py").2.result =
      .ok (some (envCleanRun.run "pylint"
        ((PylintPlugin.get_source_files envCleanRun "a.py").getLast (by decide))).stdout) :=
  c6_no_score_fallback ⟨false, -1⟩ envCleanRun "a.py" rfl (by decide) (by decide)

/-- C10: a source path that is not a directory is enumerated as exactly
the one-element list holding that path, whatever its extension (the `.py`
filter lives only on the directory branch), and the resulting check run
invokes the external scorer exactly once, on that path — on every
control path of the per-file loop. -/
theorem c10_single_file_enumeration (p : PylintPlugin) (env : Env) (source : String)
    (hdir : env.isDir source = false) (hpath : env.onPath "pylint" = true) :
    PylintPlugin.get_source_files env source = [source] ∧
    (PylintPlugin.check p env source).2.spawns = [("pylint", source)] := by
  have hs : PylintPlugin.get_source_files env source = [source] := by
    simp [PylintPlugin.get_source_files, hdir]
  refine ⟨hs, ?_⟩
  simp only [PylintPlugin.check, hpath, Bool.true_eq_false, if_false, hs]
  by_cases hsc : (extractScore (env.run "pylint" source).stdout).getD notFoundMsg = notFoundMsg
  · simp [pylintLoop, hsc]
  · simp [pylintLoop, hsc]

def envOddName : Env :=
  { onPath := fun _ => true
    isDir := fun _ => false
    walk := fun _ => []
    run := fun _ _ => ⟨"Your code has been rated at 7.0/10\n", "", 0⟩ }

theorem c10_single_file_enumeration_witness :
    PylintPlugin.get_source_files envOddName "script.txt" = ["script.txt"] ∧
    (PylintPlugin.check ⟨false, -1⟩ envOddName "script.txt").2.spawns =
      [("pylint", "script.txt")] :=
  c10_single_file_enumeration ⟨false, -1⟩ envOddName "script.txt" rfl rfl

theorem isPrefixOf_append_self (l t : List Char) : l.isPrefixOf (l ++ t) = true := by
  rw [List.isPrefixOf_iff_prefix]
  exact List.prefix_append l t

/-- The greedy `([0-9\.]+)` consumes exactly `s` when `s` is all class
characters and what follows starts with a non-class character. -/
theorem takeScoreRun_append (s r : List Char)
    (hs : ∀ c ∈ s, scoreChar c = true)
    (hr : ∀ c, r.head? = some c → scoreChar c = false) :
    takeScoreRun (s ++ r) = (s, r) := by
  induction s with
  | nil =>
    cases r with
    | nil => rfl
    | cons c cs => simp [takeScoreRun, hr c rfl]
  | cons c cs ih =>
    have hc : scoreChar c = true := hs c (List.mem_cons_self c cs)
    have hrec := ih (fun x hx => hs x (List.mem_cons_of_mem c hx))
    simp [takeScoreRun, hc, hrec]

/-- A start position where the pattern literally sits, followed by a
nonempty all-class score and `/10`, is a match capturing exactly the score. -/
theorem matchRatedAt_hit (s tail : List Char) (hs : s ≠ [])
    (hall : ∀ c ∈ s, scoreChar c = true) :
    matchRatedAt (ratedPat ++ (s ++ (slash10 ++ tail))) = some s := by
  have h1 : ratedPat.isPrefixOf (ratedPat ++ (s ++ (slash10 ++ tail))) = true :=
    isPrefixOf_append_self _ _
  have h2 : (ratedPat ++ (s ++ (slash10 ++ tail))).drop ratedPat.length = s ++ (slash10 ++ tail) :=
    List.drop_left _ _
  have h3 : takeScoreRun (s ++ (slash10 ++ tail)) = (s, slash10 ++ tail) := by
    refine takeScoreRun_append s _ hall ?_
    intro c hc
    have hsl : slash10 = ['/', '1', '0'] := rfl
    rw [hsl] at hc
    simp only [List.cons_append, List.head?_cons, Option.some.injEq] at hc
    rw [← hc]
    rfl
  have h4 : slash10.isPrefixOf (slash10 ++ tail) = true := isPrefixOf_append_self _ _
  simp [matchRatedAt, h1, h2, h3, h4, List.isEmpty_iff, hs]

/-- Once a position matches, the search returns that match. -/
theorem searchRated_of_match (cs r : List Char) (h : matchRatedAt cs = some r) :
    searchRated cs = some r := by
  cases cs with
  | nil => simpa [searchRated] using h
  | cons c cs => simp [searchRated, h, Option.orElse]

/-- The search skips every earlier start position at which the pattern
fails to match. -/
theorem searchRated_append_of_none (a rest : List Char)
    (h : ∀ p, p < a.length → matchRatedAt ((a ++ rest).drop p) = none) :
    searchRated (a ++ rest) = searchRated rest := by
  induction a with
  | nil => rfl
  | cons c cs ih =>
    have h0 : matchRatedAt (c :: (cs ++ rest)) = none := by
      have := h 0 (Nat.succ_pos cs.length)
      simpa using this
    have hrec : searchRated (cs ++ rest) = searchRated rest := by
      refine ih ?_
      intro p hp
      have := h (p + 1) (Nat.succ_lt_succ hp)
      simpa [List.drop_succ_cons] using this
    calc searchRated ((c :: cs) ++ rest)
        = (matchRatedAt (c :: (cs ++ rest))).orElse (fun _ => searchRated (cs ++ rest)) := rfl
      _ = searchRated (cs ++ rest) := by rw [h0]; rfl
      _ = searchRated rest := hrec

/-- C3: for any tool output of the form `before ++ "Your code has been
rated at " ++ s ++ "/10" ++ after`, where `s` is a nonempty numeral over
the regex class `[0-9.]`, the pattern matches at no earlier position, and
`s` denotes the decimal `q`, the extraction of lines 111-112 captures
exactly the substring `s`, and converting it as `float(score)` does yields
exactly `q` — the string-to-decimal round trip is exact. -/
theorem c3_score_extraction (a s b : String) (q : ℚ)
    (hs : s.data ≠ [])
    (hall : ∀ c ∈ s.data, scoreChar c = true)
    (hq : pyfloat s = some q)
    (hfirst : ∀ p, p < a.data.length →
      matchRatedAt
        ((a ++ ("Your code has been rated at " ++ (s ++ ("/10" ++ b)))).data.drop p) = none) :
    extractScore (a ++ ("Your code has been rated at " ++ (s ++ ("/10" ++ b)))) = some s ∧
    (extractScore
        (a ++ ("Your code has been rated at " ++ (s ++ ("/10" ++ b))))).bind pyfloat = some q := by
  have hdata : (a ++ ("Your code has been rated at " ++ (s ++ ("/10" ++ b)))).data
      = a.data ++ (ratedPat ++ (s.data ++ (slash10 ++ b.data))) := by
    simp [String.data_append, ratedPat, slash10]
  have hsearch :
      searchRated ((a ++ ("Your code has been rated at " ++ (s ++ ("/10" ++ b)))).data)
        = some s.data := by
    rw [hdata]
    rw [searchRated_append_of_none _ _ (fun p hp => by
      rw [← hdata]
      exact hfirst p (by simpa [hdata] using hp))]
    exact searchRated_of_match _ _ (matchRatedAt_hit s.data b.data hs hall)
  have hext : extractScore (a ++ ("Your code has been rated at " ++ (s ++ ("/10" ++ b))))
      = some s := by
    rw [extractScore, hsearch]
    rfl
  exact ⟨hext, by rw [hext]; exact hq⟩

theorem c3_score_extraction_witness :
    extractScore ("x " ++ ("Your code has been rated at " ++ ("8.43" ++ ("/10" ++ " ok")))) =
      some "8.43" ∧
    (extractScore
        ("x " ++ ("Your code has been rated at " ++ ("8.43" ++ ("/10" ++ " ok"))))).bind pyfloat =
      some ((843 : ℚ) / 100) :=
  c3_score_extraction "x " "8.43" " ok" ((843 : ℚ) / 100) (by decide) (by decide)
    (by
      have h : pyfloatParts "8.43" = some (8, 43, 2) := by decide
      rw [pyfloat, h]
      simp only [Option.map_some']
      norm_num)
    (by decide)

end CodeCheckerSpec
